import Mathlib

/-!
Shallow embedding of the node-pool scaling reconciler
(`cluster-autoscaler/cloudprovider/hetzner/hetzner_node_group.go`) and of
the kube-env extraction helper
(`cluster-autoscaler/cloudprovider/gce/kube_env.go`).

Go `int` fields are modelled as `Int`.  Communication with the cloud
provider (server-type lookup, per-unit create/delete outcomes, the
post-shrink re-list, the action watch channel) is modelled as explicit
environment values passed to each operation; the operations themselves are
translated line by line from the Go source.
-/

namespace Hetzner

/-- Node group state, from the `hetznerNodeGroup` struct.  The manager and
mutex fields carry no pool state and are elided; provider interaction is
passed explicitly to each operation instead. -/
structure hetznerNodeGroup where
  id : String
  minSize : Int
  maxSize : Int
  targetSize : Int
  region : String
  instanceType : String
  deriving Repr, DecidableEq

/-- Pricing entry of a server type: the location (region) name it applies
to, from `price.Location.Name` in `serverTypeAvailable`. -/
structure ServerTypePricing where
  locationName : String
  deriving Repr, DecidableEq

/-- Server type catalog entry; only the pricing list is consulted by the
scaling code. -/
structure ServerType where
  pricings : List ServerTypePricing
  deriving Repr, DecidableEq

/-- Result of `manager.cachedServerType.getServerType`: either an error or
the catalog entry. -/
abbrev ServerTypeLookup := Except Unit ServerType

/-- Translation of `serverTypeAvailable(manager, instanceType, region)`:
propagate a lookup error, otherwise scan the pricing list for an entry
whose location name equals the region. -/
def serverTypeAvailable (lookup : ServerTypeLookup) (region : String) :
    Except Unit Bool :=
  match lookup with
  | .error e => .error e
  | .ok serverType =>
      .ok (serverType.pricings.any (fun price => price.locationName == region))

/-- Errors returned by `IncreaseSize`, one per `return fmt.Errorf` site. -/
inductive GrowError where
  | deltaMustBePositive
  | sizeIncreaseTooLarge
  | failedToCheckServerType
  | serverTypeNotAvailable
  deriving Repr, DecidableEq

/-- Error returned by `DeleteNodes` when the decrease would go below the
minimum size. -/
inductive ShrinkError where
  | sizeDecreaseTooLarge
  deriving Repr, DecidableEq

/-- Environment of one `IncreaseSize` call: the server-type cache lookup
and the success/failure outcome of each parallel `createServer` unit
(`true` = the unit succeeded, `false` = it failed and decremented the
local target size). -/
structure GrowEnv where
  serverTypeLookup : ServerTypeLookup
  createResults : List Bool
  deriving Repr

/-- Number of failed create units: each failure decrements the local
`targetSize` once in the goroutine body of `IncreaseSize`. -/
def countFailures (results : List Bool) : Nat :=
  (results.filter (fun ok => !ok)).length

/-- Observable outcome of a Grow call: the pool state after the call, the
returned error (if any), and how many create requests were issued. -/
structure GrowOutcome where
  pool : hetznerNodeGroup
  error : Option GrowError
  createsIssued : Nat
  deriving Repr

/-- Translation of `(n *hetznerNodeGroup) IncreaseSize(delta int)`.  The
code issues exactly `delta` create requests; `env.createResults` lists
their outcomes (theorems hypothesise `env.createResults.length =
delta.toNat`).  Error paths return before any create is issued and leave
the pool untouched. -/
def IncreaseSize (n : hetznerNodeGroup) (delta : Int) (env : GrowEnv) :
    GrowOutcome :=
  if delta ≤ 0 then
    { pool := n, error := some .deltaMustBePositive, createsIssued := 0 }
  else
    let targetSize := n.targetSize + delta
    if targetSize > n.maxSize then
      { pool := n, error := some .sizeIncreaseTooLarge, createsIssued := 0 }
    else
      match serverTypeAvailable env.serverTypeLookup n.region with
      | .error _ =>
          { pool := n, error := some .failedToCheckServerType,
            createsIssued := 0 }
      | .ok available =>
          if !available then
            { pool := n, error := some .serverTypeNotAvailable,
              createsIssued := 0 }
          else
            { pool := { n with
                targetSize := targetSize - countFailures env.createResults }
              error := none
              createsIssued := delta.toNat }

/-- Environment of one `DeleteNodes` call: the outcome of each per-node
delete unit (failures are only logged and do not influence the state), and
the result of the post-operation `manager.allServers(n.id)` re-list, given
as the number of servers listed (or an error). -/
structure ShrinkEnv where
  deleteResults : List Bool
  listServers : Except Unit Nat
  deriving Repr

/-- Translation of `(n *hetznerNodeGroup) resetTargetSize(expectedDelta
int)`: on a successful re-list set `targetSize` to the listed count; if
the re-list fails set `targetSize = targetSize - expectedDelta`. -/
def resetTargetSize (n : hetznerNodeGroup) (expectedDelta : Int)
    (listServers : Except Unit Nat) : hetznerNodeGroup :=
  match listServers with
  | .error _ => { n with targetSize := n.targetSize - expectedDelta }
  | .ok count => { n with targetSize := (count : Int) }

/-- Observable outcome of a Shrink call. -/
structure ShrinkOutcome where
  pool : hetznerNodeGroup
  error : Option ShrinkError
  deletesIssued : Nat
  deriving Repr

/-- Translation of `(n *hetznerNodeGroup) DeleteNodes(nodes)`.  Nodes are
identified by name.  The local `targetSize` variable of the Go code is
never written back; the final state comes from
`n.resetTargetSize(-len(nodes))`. -/
def DeleteNodes (n : hetznerNodeGroup) (nodes : List String)
    (env : ShrinkEnv) : ShrinkOutcome :=
  let targetSize := n.targetSize - (nodes.length : Int)
  if targetSize < n.minSize then
    { pool := n, error := some .sizeDecreaseTooLarge, deletesIssued := 0 }
  else
    { pool := resetTargetSize n (-(nodes.length : Int)) env.listServers
      error := none
      deletesIssued := nodes.length }

/-- Translation of `(n *hetznerNodeGroup) DecreaseTargetSize(delta int)`:
add `delta` to `targetSize` and return `nil`.  The function consults no
environment because the Go code makes no provider call. -/
def DecreaseTargetSize (n : hetznerNodeGroup) (delta : Int) :
    Option Unit × hetznerNodeGroup :=
  (none, { n with targetSize := n.targetSize + delta })

/-- Terminal event observed by `waitForServerAction` on the error channel
returned by `WatchProgress`: the channel closes without a value (a Go
receive then yields the zero value `nil`), a value arrives (`none`
modelling a `nil` error, `some` a non-nil one), or the `createTimeout`
timer fires first. -/
inductive WatchEvent where
  | errChanClosed
  | errChanRecv (err : Option String)
  | timeoutElapsed
  deriving Repr, DecidableEq

/-- Result of `waitForServerAction`, one constructor per `return`. -/
inductive WaitResult where
  | success
  | failed (serverName : String) (err : String)
  | timedOut (serverName : String)
  deriving Repr, DecidableEq

/-- Translation of `waitForServerAction(m, serverName, action)`: the select
reads only the error channel; a non-nil error fails, a nil value (also the
zero value produced by closure) succeeds, and the timer branch times
out. -/
def waitForServerAction (serverName : String) (event : WatchEvent) :
    WaitResult :=
  match event with
  | .errChanClosed => .success
  | .errChanRecv none => .success
  | .errChanRecv (some err) => .failed serverName err
  | .timeoutElapsed => .timedOut serverName

/-- Modelled from the spec: the `cloudprovider.InstanceState` enum of the
cluster-autoscaler (not under `src/`).  Go gives it integer values with
zero as the unnamed default, so it is an `Int` here. -/
abbrev InstanceState := Int

/-- Modelled from the spec: `cloudprovider.InstanceRunning`. -/
def InstanceRunning : InstanceState := 1

/-- Modelled from the spec: `cloudprovider.InstanceCreating`. -/
def InstanceCreating : InstanceState := 2

/-- Modelled from the spec: `cloudprovider.InstanceDeleting`. -/
def InstanceDeleting : InstanceState := 3

/-- Modelled from the spec: `cloudprovider.InstanceErrorInfo` (not under
`src/`); `toInstanceStatus` fills its three fields on the default
branch. -/
structure InstanceErrorInfo where
  errorClass : Int
  errorCode : String
  errorMessage : String
  deriving Repr, DecidableEq

/-- Modelled from the spec: `cloudprovider.OtherErrorClass`. -/
def OtherErrorClass : Int := 99

/-- Modelled from the spec: `cloudprovider.InstanceStatus` (not under
`src/`); a Go struct whose fields default to the zero state and no error
info. -/
structure InstanceStatus where
  State : InstanceState := 0
  ErrorInfo : Option InstanceErrorInfo := none
  deriving Repr, DecidableEq

/-- Modelled from the spec: the `hcloud.ServerStatus` string constants of
the vendored hcloud client (not under `src/`). -/
def ServerStatusInitializing : String := "initializing"

/-- Modelled from the spec: `hcloud.ServerStatusStarting`. -/
def ServerStatusStarting : String := "starting"

/-- Modelled from the spec: `hcloud.ServerStatusRunning`. -/
def ServerStatusRunning : String := "running"

/-- Modelled from the spec: `hcloud.ServerStatusOff`. -/
def ServerStatusOff : String := "off"

/-- Modelled from the spec: `hcloud.ServerStatusDeleting`. -/
def ServerStatusDeleting : String := "deleting"

/-- Modelled from the spec: `hcloud.ServerStatusStopping`. -/
def ServerStatusStopping : String := "stopping"

/-- Error info built on the default branch of `toInstanceStatus`. -/
def hcloudOtherError : InstanceErrorInfo :=
  { errorClass := OtherErrorClass, errorCode := "no-code-hcloud",
    errorMessage := "error" }

/-- Translation of `toInstanceStatus(status hcloud.ServerStatus)`.  The Go
switch has no fallthrough: `Initializing`, `Off` and `Deleting` have empty
case bodies and leave the zero-valued struct untouched. -/
def toInstanceStatus (status : String) : Option InstanceStatus :=
  if status = "" then
    none
  else if status = ServerStatusInitializing then
    some {}
  else if status = ServerStatusStarting then
    some { State := InstanceCreating }
  else if status = ServerStatusRunning then
    some { State := InstanceRunning }
  else if status = ServerStatusOff then
    some {}
  else if status = ServerStatusDeleting then
    some {}
  else if status = ServerStatusStopping then
    some { State := InstanceDeleting }
  else
    some { ErrorInfo := some hcloudOtherError }

end Hetzner

namespace Gce

/-- Key looked up in the template metadata, from `kubeEnvKey`. -/
def kubeEnvKey : String := "kube-env"

/-- Parsed kube-env content; the claims never inspect it, so an
association list stands in for the Go map. -/
abbrev KubeEnv := List (String × String)

/-- Metadata item of an instance template: a key and an optional string
value (`item.Value` is a `*string` in Go). -/
structure MetadataItem where
  key : String
  value : Option String
  deriving Repr, DecidableEq

/-- Metadata block of an instance template. -/
structure Metadata where
  items : List MetadataItem
  deriving Repr, DecidableEq

/-- Instance template properties; `Metadata` is a pointer in Go, hence an
`Option`. -/
structure InstanceTemplateProperties where
  metadata : Option Metadata
  deriving Repr, DecidableEq

/-- GCE instance template; `Properties` is a pointer in Go. -/
structure InstanceTemplate where
  name : String
  properties : Option InstanceTemplateProperties
  deriving Repr, DecidableEq

/-- Translation of `ExtractKubeEnv(template)`.  The YAML-based
`ParseKubeEnv` lives behind an external library and is passed in as
`parse`; the loop over the items returns at the first item whose key is
`kube-env`.  A `.ok none` models Go's `(nil, nil)` return. -/
def ExtractKubeEnv (parse : String → Except String KubeEnv)
    (template : Option InstanceTemplate) : Except String (Option KubeEnv) :=
  match template with
  | none => .error "instance template is nil"
  | some t =>
      match t.properties with
      | none => .error ("instance template " ++ t.name ++ " has no metadata")
      | some props =>
          match props.metadata with
          | none =>
              .error ("instance template " ++ t.name ++ " has no metadata")
          | some md =>
              match md.items.find? (fun item => item.key == kubeEnvKey) with
              | some item =>
                  match item.value with
                  | none => .error "no kube-env content in metadata"
                  | some v => (parse v).map some
              | none => .ok none

/-- True when the extraction returned an error. -/
def isErr {ε α : Type} : Except ε α → Bool
  | .error _ => true
  | .ok _ => false

end Gce

namespace Hetzner

/-- Claim C4: for every invocation of the Action Waiter: if the error
channel closes without emitting any value the result is success (nil
error); if it emits a non-nil error value the result is a failure; and if
the timeout elapses first the result is a timeout error. -/
theorem waitForServerActionOutcomes (serverName err : String) :
    waitForServerAction serverName .errChanClosed = .success ∧
    waitForServerAction serverName (.errChanRecv (some err)) =
      .failed serverName err ∧
    waitForServerAction serverName .timeoutElapsed = .timedOut serverName :=
  ⟨rfl, rfl, rfl⟩

/-- Claim C5: a Grow call with `delta ≤ 0`, or with
`targetSize + delta > maxSize`, returns an error, leaves the pool
unchanged, and issues no create requests. -/
theorem growValidationRejectedNoSideEffects (n : hetznerNodeGroup)
    (delta : Int) (env : GrowEnv)
    (h : delta ≤ 0 ∨ n.targetSize + delta > n.maxSize) :
    (IncreaseSize n delta env).error.isSome = true ∧
    (IncreaseSize n delta env).pool = n ∧
    (IncreaseSize n delta env).createsIssued = 0 := by
  rcases h with h | h
  · simp [IncreaseSize, h]
  · by_cases hd : delta ≤ 0
    · simp [IncreaseSize, hd]
    · simp [IncreaseSize, hd, h]

/-- Witness for C5 at a concrete pool: `delta = 0` is rejected with no
side effects, and so is a delta overshooting `maxSize`. -/
theorem growValidationRejectedNoSideEffectsWitness :
    (((0 : Int) ≤ 0 ∨
        (2 : Int) + 0 > 3) ∧
      ((IncreaseSize ⟨"pool1", 1, 3, 2, "fsn1", "cpx11"⟩ 0
          ⟨.ok ⟨[⟨"fsn1"⟩]⟩, []⟩).error.isSome = true ∧
        (IncreaseSize ⟨"pool1", 1, 3, 2, "fsn1", "cpx11"⟩ 0
          ⟨.ok ⟨[⟨"fsn1"⟩]⟩, []⟩).pool = ⟨"pool1", 1, 3, 2, "fsn1", "cpx11"⟩ ∧
        (IncreaseSize ⟨"pool1", 1, 3, 2, "fsn1", "cpx11"⟩ 0
          ⟨.ok ⟨[⟨"fsn1"⟩]⟩, []⟩).createsIssued = 0)) :=
  ⟨Or.inl (by decide),
    growValidationRejectedNoSideEffects ⟨"pool1", 1, 3, 2, "fsn1", "cpx11"⟩ 0
      ⟨.ok ⟨[⟨"fsn1"⟩]⟩, []⟩ (Or.inl (by decide))⟩

/-- Claim C6: a Shrink call with `targetSize - len(nodes) < minSize` fails
with the below-minimum-size error, issues no deletes, and leaves the pool
unchanged. -/
theorem shrinkBelowMinRejectedNoSideEffects (n : hetznerNodeGroup)
    (nodes : List String) (env : ShrinkEnv)
    (h : n.targetSize - (nodes.length : Int) < n.minSize) :
    (DeleteNodes n nodes env).error = some .sizeDecreaseTooLarge ∧
    (DeleteNodes n nodes env).pool = n ∧
    (DeleteNodes n nodes env).deletesIssued = 0 := by
  simp [DeleteNodes, h]

/-- Witness for C6: deleting two nodes from a pool of target size 2 with
`minSize = 1` is rejected without side effects. -/
theorem shrinkBelowMinRejectedNoSideEffectsWitness :
    ((2 : Int) - (2 : Nat) < 1 ∧
      ((DeleteNodes ⟨"pool1", 1, 3, 2, "fsn1", "cpx11"⟩ ["node-a", "node-b"]
          ⟨[true, true], .ok 2⟩).error = some .sizeDecreaseTooLarge ∧
        (DeleteNodes ⟨"pool1", 1, 3, 2, "fsn1", "cpx11"⟩ ["node-a", "node-b"]
          ⟨[true, true], .ok 2⟩).pool = ⟨"pool1", 1, 3, 2, "fsn1", "cpx11"⟩ ∧
        (DeleteNodes ⟨"pool1", 1, 3, 2, "fsn1", "cpx11"⟩ ["node-a", "node-b"]
          ⟨[true, true], .ok 2⟩).deletesIssued = 0)) :=
  ⟨by decide,
    shrinkBelowMinRejectedNoSideEffects ⟨"pool1", 1, 3, 2, "fsn1", "cpx11"⟩
      ["node-a", "node-b"] ⟨[true, true], .ok 2⟩ (by decide)⟩

/-- Claim C7: `DecreaseTargetSize` always succeeds, sets `targetSize` to
`targetSize + delta` for any delta (positive, zero, or negative), makes no
provider call (its embedding consults no environment), and changes no
other pool field. -/
theorem decreaseTargetSizeUnchecked (n : hetznerNodeGroup) (delta : Int) :
    (DecreaseTargetSize n delta).1 = none ∧
    (DecreaseTargetSize n delta).2.targetSize = n.targetSize + delta ∧
    (DecreaseTargetSize n delta).2.id = n.id ∧
    (DecreaseTargetSize n delta).2.minSize = n.minSize ∧
    (DecreaseTargetSize n delta).2.maxSize = n.maxSize ∧
    (DecreaseTargetSize n delta).2.region = n.region ∧
    (DecreaseTargetSize n delta).2.instanceType = n.instanceType := by
  simp [DecreaseTargetSize]

/-- Claim C3: a Grow call that passes validation (positive delta, within
`maxSize`, server type purchasable in the region) with `delta` create
units of which `k` fail returns success and sets `targetSize` to the
pre-call value plus `delta` minus `k`. -/
theorem growPartialFailureArithmetic (n : hetznerNodeGroup) (delta : Int)
    (env : GrowEnv) (st : ServerType) (k : Nat)
    (h1 : 0 < delta) (h2 : n.targetSize + delta ≤ n.maxSize)
    (h3 : env.serverTypeLookup = .ok st)
    (h4 : st.pricings.any (fun price => price.locationName == n.region) = true)
    (h5 : env.createResults.length = delta.toNat)
    (h6 : countFailures env.createResults = k) :
    (IncreaseSize n delta env).error = none ∧
    (IncreaseSize n delta env).pool.targetSize =
      n.targetSize + delta - (k : Int) := by
  have hd : ¬ delta ≤ 0 := by omega
  have hm : ¬ n.targetSize + delta > n.maxSize := by omega
  simp [IncreaseSize, hd, hm, serverTypeAvailable, h3, h4, h6]

/-- Witness for C3, the spec's own scenario: `delta = 5` with 2 of the 5
creations failing yields success and a target size of the previous value
plus 3. -/
theorem growPartialFailureArithmeticWitness :
    ((0 : Int) < 5 ∧ (2 : Int) + 5 ≤ 10 ∧
      (GrowEnv.mk (.ok ⟨[⟨"fsn1"⟩]⟩)
          [true, false, true, false, true]).serverTypeLookup =
        .ok ⟨[⟨"fsn1"⟩]⟩ ∧
      (GrowEnv.mk (.ok ⟨[⟨"fsn1"⟩]⟩)
          [true, false, true, false, true]).createResults.length =
        (5 : Int).toNat ∧
      countFailures [true, false, true, false, true] = 2 ∧
      ((IncreaseSize ⟨"pool1", 1, 10, 2, "fsn1", "cpx11"⟩ 5
          ⟨.ok ⟨[⟨"fsn1"⟩]⟩, [true, false, true, false, true]⟩).error = none ∧
        (IncreaseSize ⟨"pool1", 1, 10, 2, "fsn1", "cpx11"⟩ 5
          ⟨.ok ⟨[⟨"fsn1"⟩]⟩, [true, false, true, false, true]⟩).pool.targetSize =
          2 + 5 - 2)) :=
  ⟨by decide, by decide, rfl, by decide, by decide,
    growPartialFailureArithmetic ⟨"pool1", 1, 10, 2, "fsn1", "cpx11"⟩ 5
      ⟨.ok ⟨[⟨"fsn1"⟩]⟩, [true, false, true, false, true]⟩ ⟨[⟨"fsn1"⟩]⟩ 2
      (by decide) (by decide) rfl (by decide) (by decide) (by decide)⟩

/-- Claim C8: a Grow call that passes the delta and maxSize checks, and
whose server-type lookup succeeds, fails with the
type-unavailable-in-region error exactly when no pricing entry of the
type has the pool's region as location name; in that case the pool is
unchanged and no create is issued. -/
theorem growTypeUnavailableIffNoPricing (n : hetznerNodeGroup) (delta : Int)
    (env : GrowEnv) (st : ServerType)
    (h1 : 0 < delta) (h2 : n.targetSize + delta ≤ n.maxSize)
    (h3 : env.serverTypeLookup = .ok st) :
    ((IncreaseSize n delta env).error = some .serverTypeNotAvailable ↔
      st.pricings.any (fun price => price.locationName == n.region) = false) ∧
    (st.pricings.any (fun price => price.locationName == n.region) = false →
      (IncreaseSize n delta env).pool = n ∧
      (IncreaseSize n delta env).createsIssued = 0) := by
  have hd : ¬ delta ≤ 0 := by omega
  have hm : ¬ n.targetSize + delta > n.maxSize := by omega
  cases ha : st.pricings.any (fun price => price.locationName == n.region) <;>
    simp [IncreaseSize, hd, hm, serverTypeAvailable, h3, ha]

/-- Witness for C8: a pool in region `fsn1` whose instance type is priced
only in `nbg1` is rejected as unavailable, with no side effects. -/
theorem growTypeUnavailableIffNoPricingWitness :
    ((0 : Int) < 1 ∧ (2 : Int) + 1 ≤ 3 ∧
      (GrowEnv.mk (.ok ⟨[⟨"nbg1"⟩]⟩) [true]).serverTypeLookup =
        .ok ⟨[⟨"nbg1"⟩]⟩ ∧
      (((IncreaseSize ⟨"pool1", 1, 3, 2, "fsn1", "cpx11"⟩ 1
            ⟨.ok ⟨[⟨"nbg1"⟩]⟩, [true]⟩).error = some .serverTypeNotAvailable ↔
          (ServerType.mk [⟨"nbg1"⟩]).pricings.any
            (fun price => price.locationName == "fsn1") = false) ∧
        ((ServerType.mk [⟨"nbg1"⟩]).pricings.any
            (fun price => price.locationName == "fsn1") = false →
          (IncreaseSize ⟨"pool1", 1, 3, 2, "fsn1", "cpx11"⟩ 1
            ⟨.ok ⟨[⟨"nbg1"⟩]⟩, [true]⟩).pool =
            ⟨"pool1", 1, 3, 2, "fsn1", "cpx11"⟩ ∧
          (IncreaseSize ⟨"pool1", 1, 3, 2, "fsn1", "cpx11"⟩ 1
            ⟨.ok ⟨[⟨"nbg1"⟩]⟩, [true]⟩).createsIssued = 0))) :=
  ⟨by decide, by decide, rfl,
    growTypeUnavailableIffNoPricing ⟨"pool1", 1, 3, 2, "fsn1", "cpx11"⟩ 1
      ⟨.ok ⟨[⟨"nbg1"⟩]⟩, [true]⟩ ⟨[⟨"nbg1"⟩]⟩ (by decide) (by decide) rfl⟩

/-- Claim C1, counterexample: a pool with `minSize = 0`, `maxSize = 3`,
`targetSize = 3` satisfies the size invariant before the call; deleting
one node when the post-operation re-list fails completes (nil error) yet
leaves `targetSize = 4 > maxSize`, because `resetTargetSize` subtracts the
expected delta of `-1`. -/
theorem shrinkBreaksSizeInvariantCounterexample :
    ((0 : Int) ≤ 3 ∧ (3 : Int) ≤ 3) ∧
    (DeleteNodes ⟨"pool1", 0, 3, 3, "fsn1", "cpx11"⟩ ["node-a"]
      ⟨[true], .error ()⟩).error = none ∧
    (DeleteNodes ⟨"pool1", 0, 3, 3, "fsn1", "cpx11"⟩ ["node-a"]
      ⟨[true], .error ()⟩).pool.targetSize = 4 ∧
    ¬ ((4 : Int) ≤ 3) := by
  decide

/-- Claim C1, amended: for every pool whose targetSize satisfies
`minSize ≤ targetSize ≤ maxSize` before the call, after any completed
Grow call — including calls in which some create units fail — the
invariant holds again.  (A completed Shrink reconciles `targetSize` to
the provider's listed count, or to the pre-call value plus the number of
deleted nodes when the re-list fails, and neither value is guaranteed to
stay within the bounds.) -/
theorem growPreservesSizeInvariant (n : hetznerNodeGroup) (delta : Int)
    (env : GrowEnv)
    (hmin : n.minSize ≤ n.targetSize) (hmax : n.targetSize ≤ n.maxSize)
    (hlen : env.createResults.length = delta.toNat)
    (hdone : (IncreaseSize n delta env).error = none) :
    n.minSize ≤ (IncreaseSize n delta env).pool.targetSize ∧
    (IncreaseSize n delta env).pool.targetSize ≤ n.maxSize := by
  have hf : countFailures env.createResults ≤ env.createResults.length :=
    List.length_filter_le _ _
  unfold IncreaseSize
  by_cases hd : delta ≤ 0
  · simp [hd]; omega
  · by_cases hm : n.targetSize + delta > n.maxSize
    · simp [hd, hm]; omega
    · cases hl : serverTypeAvailable env.serverTypeLookup n.region with
      | error e => simp [hd, hm, hl]; omega
      | ok available =>
          cases available with
          | false => simp [hd, hm, hl]; omega
          | true => simp [hd, hm, hl]; omega

/-- Witness for the amended C1: a completed Grow with one failed create
keeps `targetSize` within `[1, 3]`. -/
theorem growPreservesSizeInvariantWitness :
    ((1 : Int) ≤ 1 ∧ (1 : Int) ≤ 3 ∧
      (GrowEnv.mk (.ok ⟨[⟨"fsn1"⟩]⟩) [true, false]).createResults.length =
        (2 : Int).toNat ∧
      (IncreaseSize ⟨"pool1", 1, 3, 1, "fsn1", "cpx11"⟩ 2
        ⟨.ok ⟨[⟨"fsn1"⟩]⟩, [true, false]⟩).error = none ∧
      ((1 : Int) ≤
          (IncreaseSize ⟨"pool1", 1, 3, 1, "fsn1", "cpx11"⟩ 2
            ⟨.ok ⟨[⟨"fsn1"⟩]⟩, [true, false]⟩).pool.targetSize ∧
        (IncreaseSize ⟨"pool1", 1, 3, 1, "fsn1", "cpx11"⟩ 2
          ⟨.ok ⟨[⟨"fsn1"⟩]⟩, [true, false]⟩).pool.targetSize ≤ 3)) :=
  ⟨by decide, by decide, by decide, by decide,
    growPreservesSizeInvariant ⟨"pool1", 1, 3, 1, "fsn1", "cpx11"⟩ 2
      ⟨.ok ⟨[⟨"fsn1"⟩]⟩, [true, false]⟩ (by decide) (by decide) (by decide)
      (by decide)⟩

/-- Claim C2, counterexample: deleting 2 nodes from a pool with
`targetSize = 5` when the re-list fails yields `targetSize = 7`, not
`5 - 2 = 3`: `resetTargetSize` computes `targetSize - expectedDelta` with
`expectedDelta = -len(nodes)`. -/
theorem shrinkFallbackAddsCounterexample :
    (DeleteNodes ⟨"pool1", 0, 10, 5, "fsn1", "cpx11"⟩ ["node-a", "node-b"]
      ⟨[true, true], .error ()⟩).error = none ∧
    (DeleteNodes ⟨"pool1", 0, 10, 5, "fsn1", "cpx11"⟩ ["node-a", "node-b"]
      ⟨[true, true], .error ()⟩).pool.targetSize = 7 ∧
    ¬ ((7 : Int) = 5 - 2) := by
  decide

/-- Claim C2, amended: for every Shrink call that passes validation, if
the post-operation re-list succeeds `targetSize` is set to the listed
count; if the re-list fails, `targetSize` is set to the pre-call value
minus the expected delta of `-len(nodes)`, i.e. to the pre-call value
PLUS `len(nodes)`. -/
theorem shrinkReconcilesTargetSize (n : hetznerNodeGroup)
    (nodes : List String) (env : ShrinkEnv)
    (h : ¬ (n.targetSize - (nodes.length : Int) < n.minSize)) :
    (∀ c : Nat, env.listServers = .ok c →
      (DeleteNodes n nodes env).error = none ∧
      (DeleteNodes n nodes env).pool.targetSize = (c : Int)) ∧
    (∀ e : Unit, env.listServers = .error e →
      (DeleteNodes n nodes env).error = none ∧
      (DeleteNodes n nodes env).pool.targetSize =
        n.targetSize + (nodes.length : Int)) := by
  constructor
  · intro c hc
    simp [DeleteNodes, h, resetTargetSize, hc]
  · intro e he
    simp [DeleteNodes, h, resetTargetSize, he]

/-- Witness for the amended C2: with a successful re-list reporting 3
servers, the post-call target size is 3. -/
theorem shrinkReconcilesTargetSizeWitness :
    (¬ ((5 : Int) - (2 : Nat) < 0) ∧
      (ShrinkEnv.mk [true, true] (.ok 3)).listServers = .ok 3 ∧
      ((DeleteNodes ⟨"pool1", 0, 10, 5, "fsn1", "cpx11"⟩ ["node-a", "node-b"]
          ⟨[true, true], .ok 3⟩).error = none ∧
        (DeleteNodes ⟨"pool1", 0, 10, 5, "fsn1", "cpx11"⟩ ["node-a", "node-b"]
          ⟨[true, true], .ok 3⟩).pool.targetSize = (3 : Nat))) :=
  ⟨by decide, rfl,
    (shrinkReconcilesTargetSize ⟨"pool1", 0, 10, 5, "fsn1", "cpx11"⟩
      ["node-a", "node-b"] ⟨[true, true], .ok 3⟩ (by decide)).1 3 rfl⟩

/-- Claim C10, counterexample: `"running"` is a non-empty status distinct
from Starting, Stopping, Initializing, Off and Deleting, yet
`toInstanceStatus` returns a status with `ErrorInfo = none` (and the
running state), refuting the clause that every other non-empty status gets
its `ErrorInfo` set. -/
theorem toInstanceStatusRunningCounterexample :
    ("running" ≠ "" ∧ "running" ≠ ServerStatusStarting ∧
      "running" ≠ ServerStatusStopping ∧
      "running" ≠ ServerStatusInitializing ∧
      "running" ≠ ServerStatusOff ∧ "running" ≠ ServerStatusDeleting) ∧
    toInstanceStatus "running" =
      some { State := InstanceRunning, ErrorInfo := none } := by
  decide

/-- Claim C10, amended: `toInstanceStatus` returns `none` exactly for the
empty status; the returned state is `InstanceCreating` only for Starting
and `InstanceDeleting` only for Stopping; Initializing, Off and Deleting
yield the zero-value state with no error info; Running yields the
`InstanceRunning` state with no error info; and every other non-empty
status yields a status whose `ErrorInfo` is set. -/
theorem toInstanceStatusCases (s : String) :
    (toInstanceStatus s = none ↔ s = "") ∧
    (∀ st : InstanceStatus, toInstanceStatus s = some st →
      (st.State = InstanceCreating ↔ s = ServerStatusStarting)) ∧
    (∀ st : InstanceStatus, toInstanceStatus s = some st →
      (st.State = InstanceDeleting ↔ s = ServerStatusStopping)) ∧
    (s = ServerStatusInitializing ∨ s = ServerStatusOff ∨
        s = ServerStatusDeleting →
      toInstanceStatus s = some { State := 0, ErrorInfo := none }) ∧
    toInstanceStatus ServerStatusRunning =
      some { State := InstanceRunning, ErrorInfo := none } ∧
    (s ≠ "" → s ≠ ServerStatusInitializing → s ≠ ServerStatusStarting →
      s ≠ ServerStatusRunning → s ≠ ServerStatusOff →
      s ≠ ServerStatusDeleting → s ≠ ServerStatusStopping →
      toInstanceStatus s =
        some { State := 0, ErrorInfo := some hcloudOtherError }) := by
  refine ⟨?_, ?_, ?_, ?_, by decide, ?_⟩
  · unfold toInstanceStatus
    split_ifs with h1 <;> simp_all
  · intro st hst
    revert hst
    unfold toInstanceStatus
    split_ifs with h1 h2 h3 h4 h5 h6 h7 <;> intro hst <;> cases hst <;>
      simp_all [InstanceCreating, InstanceRunning, InstanceDeleting,
        ServerStatusInitializing, ServerStatusStarting, ServerStatusRunning,
        ServerStatusOff, ServerStatusDeleting, ServerStatusStopping]
  · intro st hst
    revert hst
    unfold toInstanceStatus
    split_ifs with h1 h2 h3 h4 h5 h6 h7 <;> intro hst <;> cases hst <;>
      simp_all [InstanceCreating, InstanceRunning, InstanceDeleting,
        ServerStatusInitializing, ServerStatusStarting, ServerStatusRunning,
        ServerStatusOff, ServerStatusDeleting, ServerStatusStopping]
  · rintro (h | h | h) <;> subst h <;> decide
  · intro h1 h2 h3 h4 h5 h6 h7
    unfold toInstanceStatus
    split_ifs <;> simp_all

/-- Witness for the amended C10: the status `"migrating"` is non-empty and
none of the six named statuses, and gets the default error info. -/
theorem toInstanceStatusCasesWitness :
    (("migrating" ≠ "" ∧ "migrating" ≠ ServerStatusInitializing ∧
        "migrating" ≠ ServerStatusStarting ∧
        "migrating" ≠ ServerStatusRunning ∧
        "migrating" ≠ ServerStatusOff ∧
        "migrating" ≠ ServerStatusDeleting ∧
        "migrating" ≠ ServerStatusStopping) ∧
      toInstanceStatus "migrating" =
        some { State := 0, ErrorInfo := some hcloudOtherError }) :=
  ⟨by decide,
    (toInstanceStatusCases "migrating").2.2.2.2.2 (by decide) (by decide)
      (by decide) (by decide) (by decide) (by decide) (by decide)⟩

end Hetzner

namespace Gce

/-- Claim C9: `ExtractKubeEnv` errors on a nil template, on nil
`Properties` or nil `Metadata`, and when the metadata item with key
`kube-env` (the first one the scan reaches, as in the Go loop) has a nil
`Value`; and it returns a nil map with a nil error (`.ok none`) when no
item has key `kube-env`.  The statement holds for every parse
function. -/
theorem extractKubeEnvCases (parse : String → Except String KubeEnv)
    (name : String) (md : Metadata) :
    isErr (ExtractKubeEnv parse none) = true ∧
    isErr (ExtractKubeEnv parse (some ⟨name, none⟩)) = true ∧
    isErr (ExtractKubeEnv parse (some ⟨name, some ⟨none⟩⟩)) = true ∧
    (∀ item : MetadataItem,
      md.items.find? (fun it => it.key == kubeEnvKey) = some item →
      item.value = none →
      isErr (ExtractKubeEnv parse (some ⟨name, some ⟨some md⟩⟩)) = true) ∧
    ((∀ item ∈ md.items, item.key ≠ kubeEnvKey) →
      ExtractKubeEnv parse (some ⟨name, some ⟨some md⟩⟩) = .ok none) := by
  refine ⟨rfl, rfl, rfl, ?_, ?_⟩
  · intro item hfind hval
    simp [ExtractKubeEnv, hfind, hval, isErr]
  · intro hall
    have hnone : md.items.find? (fun it => it.key == kubeEnvKey) = none := by
      rw [List.find?_eq_none]
      intro x hx
      simpa using hall x hx
    simp [ExtractKubeEnv, hnone]

/-- Witness for C9: a template whose only metadata item is `kube-env`
with a nil value errors, and one whose only item has a different key
returns `.ok none`; both with a concrete parse function. -/
theorem extractKubeEnvCasesWitness :
    ((([⟨"kube-env", none⟩] : List MetadataItem).find?
          (fun it => it.key == kubeEnvKey) = some ⟨"kube-env", none⟩ ∧
        (MetadataItem.mk "kube-env" none).value = none ∧
        isErr (ExtractKubeEnv (fun _ => .ok [])
          (some ⟨"tmpl", some ⟨some ⟨[⟨"kube-env", none⟩]⟩⟩⟩)) = true) ∧
      ((∀ item ∈ ([⟨"other-key", some "v"⟩] : List MetadataItem),
          item.key ≠ kubeEnvKey) ∧
        ExtractKubeEnv (fun _ => .ok [])
          (some ⟨"tmpl", some ⟨some ⟨[⟨"other-key", some "v"⟩]⟩⟩⟩) =
          .ok none)) :=
  ⟨⟨by decide, rfl,
      (extractKubeEnvCases (fun _ => .ok []) "tmpl"
        ⟨[⟨"kube-env", none⟩]⟩).2.2.2.1 ⟨"kube-env", none⟩ (by decide) rfl⟩,
    ⟨by decide,
      (extractKubeEnvCases (fun _ => .ok []) "tmpl"
        ⟨[⟨"other-key", some "v"⟩]⟩).2.2.2.2 (by decide)⟩⟩

end Gce
